import Mathlib

/-!
Shallow embedding of `src/sentry/issues/endpoints/group_events.py`
(`GroupEventsEndpoint`): the orchestrator `get`, the query resolver
`_get_search_query`, the paginated executor `_get_events_snuba` with its
per-page closure `data_fn`.

External collaborators (environment resolution, the search-grammar parser
`parse_query`, the date-range parser `get_date_range_from_params`, the
direct-hit detector `get_direct_hit_response`, the structured-query builder
`get_query_builder_for_group`, the storage engine `run_query`, the node
store `bind_nodes`, and the generic offset paginator) are modelled as an
`Oracle` of abstract functions fixed for the duration of one request.
Every call the endpoint makes into the storage layer is recorded in an
explicit trace of `Call` values so that properties about which calls
happen, with which arguments and in which order, are statable.

Machine conventions: datetimes are `Int` ticks (seconds);
`timedelta(days = n)` is `days n = n * 86400`.
-/

/-- An environment, as returned by `get_environments`; only its `name`
is read by this endpoint (`env.name for env in environments`). -/
structure Environment where
  name : String
deriving DecidableEq

/-- The slice of `IssueGroup` this endpoint reads: `group.project_id`,
`group.project.organization_id` and `group.issue_category.name`. -/
structure IssueGroup where
  project_id : Nat
  organization_id : Nat
  issue_category : String
deriving DecidableEq

/-- The GET query parameters the endpoint reads:
`query`, `full`, `sample` (start/end/statsPeriod are consumed by the
external `get_date_range_from_params` and so live in the oracle). -/
structure Request where
  rawQuery : Option String
  full : Option String
  sample : Option String
deriving DecidableEq

/-- `timedelta(days = n)` in ticks. -/
def days (n : Int) : Int := n * 86400

/-- The `params` dict built by `_get_events_snuba`: project scope,
organization scope, time window, and the optional `environment` list
added only after the direct-hit check. -/
structure Params where
  project_id : List Nat
  organization_id : Nat
  start : Int
  «end» : Int
  environment : Option (List String)
deriving DecidableEq

/-- Opaque handle for the structured query object returned by
`get_query_builder_for_group` (external). -/
structure StructuredQuery where
  tag : Nat
deriving DecidableEq

/-- One row of `results["data"]` as returned by `run_query`:
the fields `id`, `project.id`, `issue.id`, `timestamp`. -/
structure Row where
  id : String
  projectId : Nat
  issueId : Nat
  timestamp : Int
deriving DecidableEq

/-- The `snuba_data` dict attached to each `Event` handle. -/
structure SnubaData where
  event_id : String
  group_id : Nat
  project_id : Nat
  timestamp : Int
deriving DecidableEq

/-- A lightweight event handle (`eventstore.models.Event`); `nodeData`
is `none` until `bind_nodes` hydrates the full payload. -/
structure Event where
  event_id : String
  project_id : Nat
  snuba_data : SnubaData
  nodeData : Option String
deriving DecidableEq

/-- Outcome space of the query-resolution block (lines 65-71):
`InvalidQuery` from `parse_query`, `NoResults`, and
`ResourceDoesNotExist`. -/
inductive ResolveError where
  | invalidQuery (msg : String)
  | noResults
  | resourceDoesNotExist
deriving DecidableEq

/-- Errors escaping `_get_events_snuba`: `ParseError` raised directly by
`data_fn` on `InvalidSearchQuery` (line 130), and `GroupEventsError`
(caught at line 80). -/
inductive PageError where
  | parseError (detail : String)
  | groupEventsError (detail : String)
deriving DecidableEq

/-- The response object produced by `get_direct_hit_response`, opaque
to this endpoint. -/
structure DirectResp where
  body : String
deriving DecidableEq

/-- The serializer chosen at line 150: `EventSerializer` when `full`,
else `SimpleEventSerializer`. -/
inductive SerializerKind where
  | eventSerializer
  | simpleEventSerializer
deriving DecidableEq

/-- The HTTP response: a direct-hit response, the bare `Response([])`
(200), the paginated 200, or a 400 `{"detail": msg}` (either a
`Response(..., status=400)` or a DRF `ParseError`). -/
inductive Response where
  | direct (r : DirectResp)
  | emptyList
  | paginated (k : SerializerKind) (events : List Event)
  | clientError (detail : String)
deriving DecidableEq

/-- One recorded call into the storage layer. -/
inductive Call where
  | directLookup (query : Option String) (params : Params) (referrer : String)
  | buildQuery (query : String) (params : Params) (limit : Nat) (offset : Nat)
      (orderby : Option String)
  | runQuery (q : StructuredQuery) (referrer : String)
  | batchHydrate (ids : List String)
deriving DecidableEq

/-- The `params` argument carried by a call, when it has one. -/
def callParams : Call → Option Params
  | .directLookup _ p _ => some p
  | .buildQuery _ p _ _ _ => some p
  | _ => none

/-- External collaborators, fixed per request. `pages` is the sequence
of `(offset, limit)` coordinates the generic offset paginator chooses to
fetch. -/
structure Oracle where
  getEnvironments : Except ResolveError (List Environment)
  parseQuery : String → List Environment → Except ResolveError (Option String)
  dateRange : Except String (Option Int × Option Int)
  now : Int
  directHit : Option String → Params → String → Option DirectResp
  buildQuery : String → Params → Nat → Nat → Option String → Except String StructuredQuery
  runQuery : StructuredQuery → String → List Row
  nodeData : String → String
  pages : List (Nat × Nat)

/-- `request.GET.get("full") in ("1", "true")` (line 111). -/
def fullFlag (req : Request) : Bool :=
  req.full == some "1" || req.full == some "true"

/-- `request.GET.get("sample") in ("1", "true")` (line 112). -/
def sampleFlag (req : Request) : Bool :=
  req.sample == some "1" || req.sample == some "true"

/-- `orderby = "sample" if sample else None` (lines 114-117). -/
def orderbyOf (req : Request) : Option String :=
  if sampleFlag req then some "sample" else none

/-- The `params` dict as first built (lines 94-99): start/end default
independently to `now - 90 days` and `now`; no environment key yet. -/
def baseParams (o : Oracle) (g : IssueGroup) (s e : Option Int) : Params :=
  { project_id := [g.project_id]
    organization_id := g.organization_id
    start := s.getD (o.now - days 90)
    «end» := e.getD o.now
    environment := none }

/-- Lines 108-109: `params["environment"] = [env.name ...]` when the
environment list is non-empty, performed after the direct-hit check. -/
def withEnv (p : Params) (envs : List Environment) : Params :=
  if envs.isEmpty then p
  else { p with environment := some (envs.map Environment.name) }

/-- `f"api.group-events.{group.issue_category.name.lower()}"` (line 100). -/
def referrerOf (g : IssueGroup) : String :=
  "api.group-events." ++ g.issue_category.toLower

/-- `_get_search_query` (lines 157-168): `None` for an absent or empty
raw query, otherwise `parse_query(...).pop("query", None)`. -/
def get_search_query (o : Oracle) (req : Request) (envs : List Environment) :
    Except ResolveError (Option String) :=
  match req.rawQuery with
  | none => .ok none
  | some raw => if raw = "" then .ok none else o.parseQuery raw envs

/-- `data_fn` (lines 119-148): build the structured query from the RAW
request query string, `params`, `limit`, `offset`, `orderby`; on
`InvalidSearchQuery` raise `ParseError` directly; run it; map rows into
lightweight `Event` handles; if `full`, one batched `bind_nodes` over
the whole page. Returns the result plus its call trace. -/
def data_fn (o : Oracle) (rawQuery : String) (params : Params) (referrer : String)
    (full : Bool) (orderby : Option String) (offset limit : Nat) :
    Except PageError (List Event) × List Call :=
  match o.buildQuery rawQuery params limit offset orderby with
  | .error msg =>
      (.error (.parseError msg),
       [.buildQuery rawQuery params limit offset orderby])
  | .ok sq =>
      let rows := o.runQuery sq referrer
      let results : List Event := rows.map (fun r =>
        { event_id := r.id
          project_id := r.projectId
          snuba_data :=
            { event_id := r.id
              group_id := r.issueId
              project_id := r.projectId
              timestamp := r.timestamp }
          nodeData := none })
      if full then
        (.ok (results.map (fun ev => { ev with nodeData := some (o.nodeData ev.event_id) })),
         [.buildQuery rawQuery params limit offset orderby,
          .runQuery sq referrer,
          .batchHydrate (results.map Event.event_id)])
      else
        (.ok results,
         [.buildQuery rawQuery params limit offset orderby,
          .runQuery sq referrer])

/-- The generic offset paginator driving `data_fn` over its chosen
`(offset, limit)` pages, concatenating pages in order and aborting on
the first raised error. -/
def runPages (o : Oracle) (rawQuery : String) (params : Params) (referrer : String)
    (full : Bool) (orderby : Option String) :
    List (Nat × Nat) → Except PageError (List Event) × List Call
  | [] => (.ok [], [])
  | pg :: rest =>
      let step := data_fn o rawQuery params referrer full orderby pg.1 pg.2
      match step.1 with
      | .error err => (.error err, step.2)
      | .ok evts =>
          let restRes := runPages o rawQuery params referrer full orderby rest
          match restRes.1 with
          | .error err => (.error err, step.2 ++ restRes.2)
          | .ok more => (.ok (evts ++ more), step.2 ++ restRes.2)

/-- `_get_events_snuba` (lines 83-155): build `params` with defaulted
window, check the direct hit FIRST (with env-free params), then add the
environment restriction, compute `full`/`sample`/`orderby`, and paginate
`data_fn` with the raw query string. -/
def get_events_snuba (o : Oracle) (req : Request) (g : IssueGroup)
    (environments : List Environment) (query : Option String) (s e : Option Int) :
    Except PageError Response × List Call :=
  let params := baseParams o g s e
  let referrer := referrerOf g
  let dcall := Call.directLookup query params (referrer ++ ".direct-hit")
  match o.directHit query params (referrer ++ ".direct-hit") with
  | some resp => (.ok (.direct resp), [dcall])
  | none =>
      let params2 := withEnv params environments
      let full := fullFlag req
      let orderby := orderbyOf req
      let paged := runPages o (req.rawQuery.getD "") params2 referrer full orderby o.pages
      match paged.1 with
      | .error pe => (.error pe, dcall :: paged.2)
      | .ok evts =>
          (.ok (.paginated
                 (if full then .eventSerializer else .simpleEventSerializer) evts),
           dcall :: paged.2)

/-- `get` (lines 47-81): resolve environments and the search query
(InvalidQuery gives 400 `{detail}`; NoResults / ResourceDoesNotExist give
`Response([])`), then parse the date range (`InvalidParams` gives a
`ParseError` 400), then run `_get_events_snuba` (`GroupEventsError` is
converted to `ParseError`; a `ParseError` raised inside `data_fn`
propagates; both surface as 400 `{detail}`). -/
def groupEventsGet (o : Oracle) (req : Request) (g : IssueGroup) : Response × List Call :=
  match o.getEnvironments with
  | .error (.invalidQuery m) => (.clientError m, [])
  | .error .noResults => (.emptyList, [])
  | .error .resourceDoesNotExist => (.emptyList, [])
  | .ok environments =>
      match get_search_query o req environments with
      | .error (.invalidQuery m) => (.clientError m, [])
      | .error .noResults => (.emptyList, [])
      | .error .resourceDoesNotExist => (.emptyList, [])
      | .ok query =>
          match o.dateRange with
          | .error m => (.clientError m, [])
          | .ok se =>
              let r := get_events_snuba o req g environments query se.1 se.2
              match r.1 with
              | .error (.groupEventsError m) => (.clientError m, r.2)
              | .error (.parseError m) => (.clientError m, r.2)
              | .ok resp => (resp, r.2)

/-- Event identifiers of a page result, errors passed through. -/
def pageIds (r : Except PageError (List Event)) : Except PageError (List String) :=
  r.map (List.map Event.event_id)

/-- Number of batched hydration calls in a trace. -/
def hydrateCount (tr : List Call) : Nat :=
  tr.countP (fun c => match c with | .batchHydrate _ => true | _ => false)

/-- When the query builder raises, `data_fn` raises `ParseError` with the
builder message after exactly the one build call. -/
theorem data_fn_trace_error (o : Oracle) (rawQ : String) (params : Params) (ref : String)
    (full : Bool) (ob : Option String) (off lim : Nat) (m : String)
    (hb : o.buildQuery rawQ params lim off ob = .error m) :
    data_fn o rawQ params ref full ob off lim =
      (.error (.parseError m), [.buildQuery rawQ params lim off ob]) := by
  unfold data_fn
  rw [hb]

/-- When the query builder succeeds, the page trace is the build call,
the storage query, and (iff `full`) one batched hydration over exactly
the identifiers of the page's rows. -/
theorem data_fn_trace_ok (o : Oracle) (rawQ : String) (params : Params) (ref : String)
    (full : Bool) (ob : Option String) (off lim : Nat) (sq : StructuredQuery)
    (hb : o.buildQuery rawQ params lim off ob = .ok sq) :
    (data_fn o rawQ params ref full ob off lim).2 =
      Call.buildQuery rawQ params lim off ob :: Call.runQuery sq ref ::
        (if full then [Call.batchHydrate ((o.runQuery sq ref).map Row.id)] else []) := by
  unfold data_fn
  rw [hb]
  cases full <;> simp [List.map_map]

/-- Every call in a `data_fn` trace is the exact build call, a storage
query with the page referrer, or a batched hydration. -/
theorem data_fn_mem_shape (o : Oracle) (rawQ : String) (params : Params) (ref : String)
    (full : Bool) (ob : Option String) (off lim : Nat) :
    ∀ c ∈ (data_fn o rawQ params ref full ob off lim).2,
      c = Call.buildQuery rawQ params lim off ob ∨
      (∃ sq, c = Call.runQuery sq ref) ∨ (∃ ids, c = Call.batchHydrate ids) := by
  intro c hc
  rcases hb : o.buildQuery rawQ params lim off ob with m | sq
  · simp only [data_fn_trace_error o rawQ params ref full ob off lim m hb,
      List.mem_singleton] at hc
    exact Or.inl hc
  · simp only [data_fn_trace_ok o rawQ params ref full ob off lim sq hb] at hc
    cases full <;> simp at hc
    · rcases hc with h | h
      · exact Or.inl h
      · exact Or.inr (Or.inl ⟨sq, h⟩)
    · rcases hc with h | h | h
      · exact Or.inl h
      · exact Or.inr (Or.inl ⟨sq, h⟩)
      · exact Or.inr (Or.inr ⟨_, h⟩)

/-- The trace of one paginator step is the head page's trace, possibly
followed by the remaining pages' trace. -/
theorem runPages_trace_cases (o : Oracle) (rawQ : String) (params : Params) (ref : String)
    (full : Bool) (ob : Option String) (pg : Nat × Nat) (rest : List (Nat × Nat)) :
    (runPages o rawQ params ref full ob (pg :: rest)).2 =
        (data_fn o rawQ params ref full ob pg.1 pg.2).2 ∨
    (runPages o rawQ params ref full ob (pg :: rest)).2 =
        (data_fn o rawQ params ref full ob pg.1 pg.2).2 ++
        (runPages o rawQ params ref full ob rest).2 := by
  rw [runPages]
  dsimp only
  cases (data_fn o rawQ params ref full ob pg.1 pg.2).1 with
  | error err => exact Or.inl rfl
  | ok evts =>
      cases (runPages o rawQ params ref full ob rest).1 with
      | error err => exact Or.inr rfl
      | ok more => exact Or.inr rfl

/-- Shape of the calls the paginator loop emits over its pages. -/
theorem runPages_mem_shape (o : Oracle) (rawQ : String) (params : Params) (ref : String)
    (full : Bool) (ob : Option String) :
    ∀ pages : List (Nat × Nat), ∀ c ∈ (runPages o rawQ params ref full ob pages).2,
      (∃ off lim, (off, lim) ∈ pages ∧ c = Call.buildQuery rawQ params lim off ob) ∨
      (∃ sq, c = Call.runQuery sq ref) ∨ (∃ ids, c = Call.batchHydrate ids) := by
  intro pages
  induction pages with
  | nil => intro c hc; simp [runPages] at hc
  | cons pg rest ih =>
    intro c hc
    have hstep := data_fn_mem_shape o rawQ params ref full ob pg.1 pg.2 c
    rcases runPages_trace_cases o rawQ params ref full ob pg rest with ht | ht <;>
      rw [ht] at hc
    · rcases hstep hc with h | h
      · exact Or.inl ⟨pg.1, pg.2, List.mem_cons_self _ _, h⟩
      · exact Or.inr h
    · rcases List.mem_append.mp hc with h | h
      · rcases hstep h with h2 | h2
        · exact Or.inl ⟨pg.1, pg.2, List.mem_cons_self _ _, h2⟩
        · exact Or.inr h2
      · rcases ih c h with h2 | h2
        · rcases h2 with ⟨off, lim, hmem, hce⟩
          exact Or.inl ⟨off, lim, List.mem_cons_of_mem _ hmem, hce⟩
        · exact Or.inr h2

/-- A qualifying direct hit returns immediately with the direct-hit
response and exactly one call: the direct lookup with the env-free
params and the `.direct-hit` referrer. -/
theorem snuba_direct_hit_eq (o : Oracle) (req : Request) (g : IssueGroup)
    (envs : List Environment) (q : Option String) (s e : Option Int) (r : DirectResp)
    (hd : o.directHit q (baseParams o g s e) (referrerOf g ++ ".direct-hit") = some r) :
    get_events_snuba o req g envs q s e =
      (.ok (.direct r),
       [Call.directLookup q (baseParams o g s e) (referrerOf g ++ ".direct-hit")]) := by
  unfold get_events_snuba
  dsimp only
  rw [hd]

/-- The `_get_events_snuba` trace is the direct lookup alone, or the
direct lookup followed by the paginator's trace. -/
theorem snuba_trace_cases (o : Oracle) (req : Request) (g : IssueGroup)
    (envs : List Environment) (q : Option String) (s e : Option Int) :
    (get_events_snuba o req g envs q s e).2 =
        [Call.directLookup q (baseParams o g s e) (referrerOf g ++ ".direct-hit")] ∨
    (get_events_snuba o req g envs q s e).2 =
        Call.directLookup q (baseParams o g s e) (referrerOf g ++ ".direct-hit") ::
        (runPages o (req.rawQuery.getD "") (withEnv (baseParams o g s e) envs)
          (referrerOf g) (fullFlag req) (orderbyOf req) o.pages).2 := by
  unfold get_events_snuba
  dsimp only
  cases o.directHit q (baseParams o g s e) (referrerOf g ++ ".direct-hit") with
  | some resp => exact Or.inl rfl
  | none =>
      cases (runPages o (req.rawQuery.getD "") (withEnv (baseParams o g s e) envs)
          (referrerOf g) (fullFlag req) (orderbyOf req) o.pages).1 with
      | error pe => exact Or.inr rfl
      | ok evts => exact Or.inr rfl

/-- The first call of `_get_events_snuba` is always the direct lookup. -/
theorem snuba_trace_head (o : Oracle) (req : Request) (g : IssueGroup)
    (envs : List Environment) (q : Option String) (s e : Option Int) :
    (get_events_snuba o req g envs q s e).2.head? =
      some (Call.directLookup q (baseParams o g s e) (referrerOf g ++ ".direct-hit")) := by
  rcases snuba_trace_cases o req g envs q s e with ht | ht <;> rw [ht] <;> rfl

/-- Shape of the full trace of `_get_events_snuba`: the direct lookup
with the env-free params, build calls with the raw query string and the
env-extended params at paginator-chosen pages, and storage/hydration
calls. -/
theorem snuba_mem_shape (o : Oracle) (req : Request) (g : IssueGroup)
    (envs : List Environment) (q : Option String) (s e : Option Int) :
    ∀ c ∈ (get_events_snuba o req g envs q s e).2,
      c = Call.directLookup q (baseParams o g s e) (referrerOf g ++ ".direct-hit") ∨
      (∃ off lim, (off, lim) ∈ o.pages ∧
        c = Call.buildQuery (req.rawQuery.getD "") (withEnv (baseParams o g s e) envs)
              lim off (orderbyOf req)) ∨
      (∃ sq, c = Call.runQuery sq (referrerOf g)) ∨
      (∃ ids, c = Call.batchHydrate ids) := by
  intro c hc
  rcases snuba_trace_cases o req g envs q s e with ht | ht <;> rw [ht] at hc
  · simp only [List.mem_singleton] at hc
    exact Or.inl hc
  · rcases List.mem_cons.mp hc with h | h
    · exact Or.inl h
    · rcases runPages_mem_shape o (req.rawQuery.getD "") (withEnv (baseParams o g s e) envs)
          (referrerOf g) (fullFlag req) (orderbyOf req) o.pages c h with h2 | h2
      · rcases h2 with ⟨off, lim, hmem, hce⟩
        exact Or.inr (Or.inl ⟨off, lim, hmem, hce⟩)
      · exact Or.inr (Or.inr h2)

/-- `withEnv` never changes the window bounds. -/
theorem withEnv_window (p : Params) (envs : List Environment) :
    (withEnv p envs).start = p.start ∧ (withEnv p envs).«end» = p.«end» := by
  unfold withEnv
  split <;> exact ⟨rfl, rfl⟩

/-- A benign concrete oracle used to evaluate the theorems on concrete
inputs: no direct hit, one page of one row, everything succeeding. -/
def oBase : Oracle :=
  { getEnvironments := .ok []
    parseQuery := fun _ _ => .ok none
    dateRange := .ok (none, none)
    now := 10000000
    directHit := fun _ _ _ => none
    buildQuery := fun _ _ _ _ _ => .ok ⟨0⟩
    runQuery := fun _ _ => [⟨"ev1", 1, 5, 423⟩]
    nodeData := fun _ => "node"
    pages := [(0, 100)] }

/-- A concrete request with no query parameters set. -/
def reqBase : Request := { rawQuery := none, full := none, sample := none }

/-- A concrete issue group. -/
def gBase : IssueGroup := { project_id := 1, organization_id := 2, issue_category := "ERROR" }

/-- Claim C3: when the direct-hit detector produces a response,
`_get_events_snuba` returns it immediately: the trace is exactly one
direct lookup, with no page fetch, no storage query, no hydration, and
the response is the direct-hit response, not a paginated one. -/
theorem claim_C3 (o : Oracle) (req : Request) (g : IssueGroup)
    (envs : List Environment) (q : Option String) (s e : Option Int) (r : DirectResp)
    (hd : o.directHit q (baseParams o g s e) (referrerOf g ++ ".direct-hit") = some r) :
    get_events_snuba o req g envs q s e =
      (.ok (.direct r),
       [Call.directLookup q (baseParams o g s e) (referrerOf g ++ ".direct-hit")]) :=
  snuba_direct_hit_eq o req g envs q s e r hd

/-- Witness for C3 at a concrete oracle whose detector fires. -/
theorem claim_C3_witness :
    get_events_snuba { oBase with directHit := fun _ _ _ => some ⟨"hit"⟩ }
        reqBase gBase [] none none none =
      (.ok (.direct ⟨"hit"⟩),
       [Call.directLookup none
          (baseParams { oBase with directHit := fun _ _ _ => some ⟨"hit"⟩ } gBase none none)
          (referrerOf gBase ++ ".direct-hit")]) :=
  claim_C3 { oBase with directHit := fun _ _ _ => some ⟨"hit"⟩ }
    reqBase gBase [] none none none ⟨"hit"⟩ rfl

/-- Claim C4: on a fetched page (the query builder succeeded), if the
request has `full` set to `"1"` or `"true"` the page trace is the build
call, the storage query, and then exactly one batched hydration carrying
all the page's row identifiers; if `full` is not so set, no hydration
call is made on that page. -/
theorem claim_C4 (o : Oracle) (req : Request) (params : Params) (ref : String)
    (ob : Option String) (off lim : Nat) (sq : StructuredQuery)
    (hb : o.buildQuery (req.rawQuery.getD "") params lim off ob = .ok sq) :
    (fullFlag req = true →
      (data_fn o (req.rawQuery.getD "") params ref (fullFlag req) ob off lim).2 =
        [Call.buildQuery (req.rawQuery.getD "") params lim off ob,
         Call.runQuery sq ref,
         Call.batchHydrate ((o.runQuery sq ref).map Row.id)] ∧
      hydrateCount
        (data_fn o (req.rawQuery.getD "") params ref (fullFlag req) ob off lim).2 = 1) ∧
    (fullFlag req = false →
      hydrateCount
        (data_fn o (req.rawQuery.getD "") params ref (fullFlag req) ob off lim).2 = 0) := by
  constructor
  · intro hf
    rw [data_fn_trace_ok o (req.rawQuery.getD "") params ref (fullFlag req) ob off lim sq hb,
      hf]
    exact ⟨rfl, rfl⟩
  · intro hf
    rw [data_fn_trace_ok o (req.rawQuery.getD "") params ref (fullFlag req) ob off lim sq hb,
      hf]
    rfl

/-- Witness for C4: with `full=1` the trace ends in one batched
hydration over the page's row ids; with `full` unset there is none. -/
theorem claim_C4_witness :
    ((data_fn oBase ((reqBase.rawQuery).getD "") (baseParams oBase gBase none none) "r"
        (fullFlag { reqBase with full := some "1" }) none 0 100).2 =
      [Call.buildQuery ((reqBase.rawQuery).getD "") (baseParams oBase gBase none none) 100 0 none,
       Call.runQuery ⟨0⟩ "r",
       Call.batchHydrate ["ev1"]]) ∧
    hydrateCount
      (data_fn oBase ((reqBase.rawQuery).getD "") (baseParams oBase gBase none none) "r"
        (fullFlag reqBase) none 0 100).2 = 0 := by
  constructor
  · exact ((claim_C4 oBase { reqBase with full := some "1" }
      (baseParams oBase gBase none none) "r" none 0 100 ⟨0⟩ rfl).1 rfl).1
  · exact (claim_C4 oBase reqBase
      (baseParams oBase gBase none none) "r" none 0 100 ⟨0⟩ rfl).2 rfl

/-- Every `params`-carrying call in the `_get_events_snuba` trace has
the window the code computed: supplied bounds verbatim, missing bounds
defaulted independently to `now - 90 days` / `now`. -/
theorem snuba_callParams_window (o : Oracle) (req : Request) (g : IssueGroup)
    (envs : List Environment) (q : Option String) (s e : Option Int) :
    ∀ c ∈ (get_events_snuba o req g envs q s e).2, ∀ p,
      callParams c = some p →
      p.start = s.getD (o.now - days 90) ∧ p.«end» = e.getD o.now := by
  intro c hc p hp
  rcases snuba_mem_shape o req g envs q s e c hc with h | h | h | h
  · subst h
    simp only [callParams, Option.some.injEq] at hp
    subst hp
    exact ⟨rfl, rfl⟩
  · rcases h with ⟨off, lim, hmem, hce⟩
    subst hce
    simp only [callParams, Option.some.injEq] at hp
    subst hp
    exact ⟨(withEnv_window _ envs).1, (withEnv_window _ envs).2⟩
  · rcases h with ⟨sq, hce⟩
    subst hce
    simp [callParams] at hp
  · rcases h with ⟨ids, hce⟩
    subst hce
    simp [callParams] at hp

/-- Claim C5: when neither `start` nor `end` is supplied, every storage
call of the request carries the window [now - 90 days, now). -/
theorem claim_C5 (o : Oracle) (req : Request) (g : IssueGroup)
    (envs : List Environment) (q : Option String) :
    ∀ c ∈ (get_events_snuba o req g envs q none none).2, ∀ p,
      callParams c = some p →
      p.start = o.now - days 90 ∧ p.«end» = o.now := by
  intro c hc p hp
  exact snuba_callParams_window o req g envs q none none c hc p hp

/-- Witness for C5: the direct lookup of a concrete defaulted request
carries exactly the window [now - 90 days, now). -/
theorem claim_C5_witness :
    (baseParams oBase gBase none none).start = oBase.now - days 90 ∧
    (baseParams oBase gBase none none).«end» = oBase.now :=
  claim_C5 oBase reqBase gBase [] none
    (Call.directLookup none (baseParams oBase gBase none none)
      (referrerOf gBase ++ ".direct-hit"))
    (by
      have h2 := List.eq_cons_of_mem_head?
        (show _ ∈ (get_events_snuba oBase reqBase gBase [] none none none).2.head? by
          rw [snuba_trace_head oBase reqBase gBase [] none none none]; rfl)
      rw [h2]
      exact List.mem_cons_self _ _)
    (baseParams oBase gBase none none) rfl

/-- Claim C7: query-resolution failure with `InvalidQuery` yields a 400
whose detail is the parser's message; failure with `NoResults` or
`ResourceDoesNotExist` (unresolvable issue/resource, at either the
environment-resolution or the parse step) yields `Response([])`, a 200
empty-list success. -/
theorem claim_C7 (o : Oracle) (req : Request) (g : IssueGroup) (envs : List Environment) :
    (∀ m, o.getEnvironments = .ok envs →
        get_search_query o req envs = .error (.invalidQuery m) →
        groupEventsGet o req g = (.clientError m, [])) ∧
    (o.getEnvironments = .ok envs → get_search_query o req envs = .error .noResults →
        groupEventsGet o req g = (.emptyList, [])) ∧
    (o.getEnvironments = .ok envs →
        get_search_query o req envs = .error .resourceDoesNotExist →
        groupEventsGet o req g = (.emptyList, [])) ∧
    (o.getEnvironments = .error .resourceDoesNotExist →
        groupEventsGet o req g = (.emptyList, [])) := by
  refine ⟨?_, ?_, ?_, ?_⟩
  · intro m h1 h2
    unfold groupEventsGet
    rw [h1]
    dsimp only
    rw [h2]
  · intro h1 h2
    unfold groupEventsGet
    rw [h1]
    dsimp only
    rw [h2]
  · intro h1 h2
    unfold groupEventsGet
    rw [h1]
    dsimp only
    rw [h2]
  · intro h1
    unfold groupEventsGet
    rw [h1]

/-- Witness for C7 at four concrete oracles, one per outcome. -/
theorem claim_C7_witness :
    groupEventsGet { oBase with parseQuery := fun _ _ => .error (.invalidQuery "bad syntax") }
        { reqBase with rawQuery := some "boom" } gBase = (.clientError "bad syntax", []) ∧
    groupEventsGet { oBase with parseQuery := fun _ _ => .error .noResults }
        { reqBase with rawQuery := some "boom" } gBase = (.emptyList, []) ∧
    groupEventsGet { oBase with parseQuery := fun _ _ => .error .resourceDoesNotExist }
        { reqBase with rawQuery := some "boom" } gBase = (.emptyList, []) ∧
    groupEventsGet { oBase with getEnvironments := .error .resourceDoesNotExist }
        reqBase gBase = (.emptyList, []) :=
  ⟨(claim_C7 _ _ gBase []).1 "bad syntax" rfl rfl,
   (claim_C7 _ _ gBase []).2.1 rfl rfl,
   (claim_C7 _ _ gBase []).2.2.1 rfl rfl,
   (claim_C7 _ _ gBase []).2.2.2 rfl⟩

/-- Claim C8: `data_fn` is deterministic given the storage engine's
behavior: two oracles that agree on query building and query execution
(whatever their other behavior, e.g. hydration payloads) produce the
same event identifiers in the same order for the same arguments, in
both ordering modes (`orderby` is universally quantified). -/
theorem claim_C8 (o1 o2 : Oracle) (rawQ : String) (params : Params) (ref : String)
    (full : Bool) (ob : Option String) (off lim : Nat)
    (hb : o1.buildQuery = o2.buildQuery) (hr : o1.runQuery = o2.runQuery) :
    pageIds (data_fn o1 rawQ params ref full ob off lim).1 =
    pageIds (data_fn o2 rawQ params ref full ob off lim).1 := by
  unfold data_fn
  rw [hb, hr]
  cases hq : o2.buildQuery rawQ params lim off ob with
  | error m => rfl
  | ok sq =>
      dsimp only
      cases full
      · rfl
      · simp [pageIds, Except.map, List.map_map]

/-- Witness for C8: two oracles differing in hydration behavior but
agreeing on storage return identical identifier sequences. -/
theorem claim_C8_witness :
    pageIds (data_fn oBase "" (baseParams oBase gBase none none) "r" true none 0 100).1 =
    pageIds (data_fn { oBase with nodeData := fun s => s ++ "!" } ""
        (baseParams oBase gBase none none) "r" true none 0 100).1 :=
  claim_C8 oBase { oBase with nodeData := fun s => s ++ "!" } ""
    (baseParams oBase gBase none none) "r" true none 0 100 rfl rfl

/-- Claim C9: with a non-empty resolved environment set, the direct-hit
lookup is performed first with environment-free params (the environment
restriction is added only after the direct-hit check), while every
paginated build call carries the environment names. -/
theorem claim_C9 (o : Oracle) (req : Request) (g : IssueGroup)
    (envs : List Environment) (q : Option String) (s e : Option Int)
    (hne : envs ≠ []) :
    ((get_events_snuba o req g envs q s e).2.head? =
        some (Call.directLookup q (baseParams o g s e) (referrerOf g ++ ".direct-hit")) ∧
      (baseParams o g s e).environment = none) ∧
    (∀ c ∈ (get_events_snuba o req g envs q s e).2, ∀ qs p lim off ob,
        c = Call.buildQuery qs p lim off ob →
        p.environment = some (envs.map Environment.name)) := by
  have hE : envs.isEmpty = false := by
    cases envs with
    | nil => exact absurd rfl hne
    | cons a l => rfl
  refine ⟨⟨snuba_trace_head o req g envs q s e, rfl⟩, ?_⟩
  intro c hc qs p lim off ob hce
  subst hce
  rcases snuba_mem_shape o req g envs q s e _ hc with h | h | h | h
  · exact Call.noConfusion h
  · rcases h with ⟨off2, lim2, hmem, hce2⟩
    injection hce2 with e1 e2 e3 e4 e5
    subst e2
    simp [withEnv, hE]
  · rcases h with ⟨sq, hce2⟩
    exact Call.noConfusion hce2
  · rcases h with ⟨ids, hce2⟩
    exact Call.noConfusion hce2

/-- Witness for C9: with environment `prod`, the direct lookup carries
no environment and the build call carries `["prod"]`. -/
theorem claim_C9_witness :
    ((get_events_snuba oBase reqBase gBase [⟨"prod"⟩] none none none).2.head? =
        some (Call.directLookup none (baseParams oBase gBase none none)
          (referrerOf gBase ++ ".direct-hit")) ∧
      (baseParams oBase gBase none none).environment = none) ∧
    (withEnv (baseParams oBase gBase none none) [⟨"prod"⟩]).environment = some ["prod"] :=
  ⟨(claim_C9 oBase reqBase gBase [⟨"prod"⟩] none none none (by decide)).1,
   (claim_C9 oBase reqBase gBase [⟨"prod"⟩] none none none (by decide)).2
     (Call.buildQuery "" (withEnv (baseParams oBase gBase none none) [⟨"prod"⟩]) 100 0 none)
     (by
       have h2 := List.eq_cons_of_mem_head?
         (show _ ∈ (get_events_snuba oBase reqBase gBase [⟨"prod"⟩] none none none).2.head? by
           rw [snuba_trace_head oBase reqBase gBase [⟨"prod"⟩] none none none]; rfl)
       rw [h2]
       refine List.mem_cons_of_mem _ ?_
       rw [show (get_events_snuba oBase reqBase gBase [⟨"prod"⟩] none none none).2.tail =
         (runPages oBase "" (withEnv (baseParams oBase gBase none none) [⟨"prod"⟩])
           (referrerOf gBase) false none [(0, 100)]).2 from rfl]
       rw [show (runPages oBase "" (withEnv (baseParams oBase gBase none none) [⟨"prod"⟩])
           (referrerOf gBase) false none [(0, 100)]).2 =
         [Call.buildQuery "" (withEnv (baseParams oBase gBase none none) [⟨"prod"⟩]) 100 0 none,
          Call.runQuery ⟨0⟩ (referrerOf gBase)] from rfl]
       exact List.mem_cons_self _ _)
     "" (withEnv (baseParams oBase gBase none none) [⟨"prod"⟩]) 100 0 none rfl⟩

/-- Claim C10: with exactly one of start/end supplied, the missing
bound defaults independently (missing start becomes now - 90 days,
missing end becomes now), and an end earlier than now - 90 days makes
every storage call's window inverted (end < start). -/
theorem claim_C10 (o : Oracle) (req : Request) (g : IssueGroup)
    (envs : List Environment) (q : Option String) (sv ev : Int) :
    (∀ c ∈ (get_events_snuba o req g envs q (some sv) none).2, ∀ p,
        callParams c = some p → p.start = sv ∧ p.«end» = o.now) ∧
    (∀ c ∈ (get_events_snuba o req g envs q none (some ev)).2, ∀ p,
        callParams c = some p → p.start = o.now - days 90 ∧ p.«end» = ev) ∧
    (ev < o.now - days 90 →
      ∀ c ∈ (get_events_snuba o req g envs q none (some ev)).2, ∀ p,
        callParams c = some p → p.«end» < p.start) := by
  refine ⟨?_, ?_, ?_⟩
  · intro c hc p hp
    exact snuba_callParams_window o req g envs q (some sv) none c hc p hp
  · intro c hc p hp
    exact snuba_callParams_window o req g envs q none (some ev) c hc p hp
  · intro hlt c hc p hp
    obtain ⟨h1, h2⟩ := snuba_callParams_window o req g envs q none (some ev) c hc p hp
    rw [h1, h2]
    exact hlt

/-- Witness for C10 at concrete inputs: only `start=5` keeps end at
`now`; only `end=1000000` (earlier than `now - 90 days = 2224000`)
yields an inverted window on the direct lookup's params. -/
theorem claim_C10_witness :
    ((baseParams oBase gBase (some 5) none).start = 5 ∧
      (baseParams oBase gBase (some 5) none).«end» = oBase.now) ∧
    ((baseParams oBase gBase none (some 1000000)).start = oBase.now - days 90 ∧
      (baseParams oBase gBase none (some 1000000)).«end» = 1000000) ∧
    (baseParams oBase gBase none (some 1000000)).«end» <
      (baseParams oBase gBase none (some 1000000)).start :=
  ⟨(claim_C10 oBase reqBase gBase [] none 5 1000000).1
     (Call.directLookup none (baseParams oBase gBase (some 5) none)
       (referrerOf gBase ++ ".direct-hit"))
     (by
       have h2 := List.eq_cons_of_mem_head?
         (show _ ∈ (get_events_snuba oBase reqBase gBase [] none (some 5) none).2.head? by
           rw [snuba_trace_head oBase reqBase gBase [] none (some 5) none]; rfl)
       rw [h2]
       exact List.mem_cons_self _ _)
     (baseParams oBase gBase (some 5) none) rfl,
   (claim_C10 oBase reqBase gBase [] none 5 1000000).2.1
     (Call.directLookup none (baseParams oBase gBase none (some 1000000))
       (referrerOf gBase ++ ".direct-hit"))
     (by
       have h2 := List.eq_cons_of_mem_head?
         (show _ ∈
             (get_events_snuba oBase reqBase gBase [] none none (some 1000000)).2.head? by
           rw [snuba_trace_head oBase reqBase gBase [] none none (some 1000000)]; rfl)
       rw [h2]
       exact List.mem_cons_self _ _)
     (baseParams oBase gBase none (some 1000000)) rfl,
   (claim_C10 oBase reqBase gBase [] none 5 1000000).2.2 (by decide)
     (Call.directLookup none (baseParams oBase gBase none (some 1000000))
       (referrerOf gBase ++ ".direct-hit"))
     (by
       have h2 := List.eq_cons_of_mem_head?
         (show _ ∈
             (get_events_snuba oBase reqBase gBase [] none none (some 1000000)).2.head? by
           rw [snuba_trace_head oBase reqBase gBase [] none none (some 1000000)]; rfl)
       rw [h2]
       exact List.mem_cons_self _ _)
     (baseParams oBase gBase none (some 1000000)) rfl⟩

/-- Oracle whose parser resolves the raw query to a different predicate,
exposing which of the two strings the query builder receives. -/
def oCounterC1 : Oracle := { oBase with parseQuery := fun _ _ => .ok (some "resolved") }

/-- Request carrying a raw query string that the parser transforms. -/
def reqCounterC1 : Request := { reqBase with rawQuery := some "is:unresolved resolved" }

/-- Claim C1 counterexample: the resolver (`_get_search_query`) yields
`"resolved"`, yet the one build call of the request passes the RAW query
string `"is:unresolved resolved"` to the storage layer - the structured
query is not built from the resolved predicate. -/
theorem claim_C1_counterexample :
    get_search_query oCounterC1 reqCounterC1 [] = .ok (some "resolved") ∧
    (groupEventsGet oCounterC1 reqCounterC1 gBase).2 =
      [Call.directLookup (some "resolved") (baseParams oCounterC1 gBase none none)
         (referrerOf gBase ++ ".direct-hit"),
       Call.buildQuery "is:unresolved resolved" (baseParams oCounterC1 gBase none none)
         100 0 none,
       Call.runQuery ⟨0⟩ (referrerOf gBase)] ∧
    ("is:unresolved resolved" : String) ≠ "resolved" :=
  ⟨rfl, rfl, by decide⟩

/-- Claim C1 amended: every structured query passed to the storage layer
is built from the RAW request query string (empty if absent) - not the
resolver's output - together with the params carrying project scope,
organization scope, time window and environment filter, a
paginator-chosen offset and limit, and the orderby derived from
`sample`. -/
theorem claim_C1_amended (o : Oracle) (req : Request) (g : IssueGroup)
    (envs : List Environment) (q : Option String) (s e : Option Int) :
    ∀ c ∈ (get_events_snuba o req g envs q s e).2, ∀ qs p lim off ob,
      c = Call.buildQuery qs p lim off ob →
      qs = req.rawQuery.getD "" ∧
      p = withEnv (baseParams o g s e) envs ∧
      ob = orderbyOf req ∧ (off, lim) ∈ o.pages := by
  intro c hc qs p lim off ob hce
  subst hce
  rcases snuba_mem_shape o req g envs q s e _ hc with h | h | h | h
  · exact Call.noConfusion h
  · rcases h with ⟨off2, lim2, hmem, hce2⟩
    injection hce2 with e1 e2 e3 e4 e5
    subst e1
    subst e2
    subst e3
    subst e4
    subst e5
    exact ⟨rfl, rfl, rfl, hmem⟩
  · rcases h with ⟨sq, hce2⟩
    exact Call.noConfusion hce2
  · rcases h with ⟨ids, hce2⟩
    exact Call.noConfusion hce2

/-- Witness for the amended C1 at a concrete build call. -/
theorem claim_C1_amended_witness :
    ("" : String) = (reqBase.rawQuery).getD "" ∧
    withEnv (baseParams oBase gBase none none) [] =
      withEnv (baseParams oBase gBase none none) [] ∧
    (none : Option String) = orderbyOf reqBase ∧ ((0 : Nat), (100 : Nat)) ∈ oBase.pages :=
  claim_C1_amended oBase reqBase gBase [] none none none
    (Call.buildQuery "" (withEnv (baseParams oBase gBase none none) []) 100 0 none)
    (by
      rw [show (get_events_snuba oBase reqBase gBase [] none none none).2 =
        [Call.directLookup none (baseParams oBase gBase none none)
           (referrerOf gBase ++ ".direct-hit"),
         Call.buildQuery "" (withEnv (baseParams oBase gBase none none) []) 100 0 none,
         Call.runQuery ⟨0⟩ (referrerOf gBase)] from rfl]
      exact List.mem_cons_of_mem _ (List.mem_cons_self _ _))
    "" (withEnv (baseParams oBase gBase none none) []) 100 0 none rfl

/-- Oracle whose date-range parser rejects the window while the
direct-hit detector would fire. -/
def oCounterC2 : Oracle :=
  { oBase with dateRange := .error "invalid date", directHit := fun _ _ _ => some ⟨"hit"⟩ }

/-- Claim C2 counterexample: the direct-hit detector qualifies (it would
return a response for these params), yet with invalid window parameters
the endpoint answers 400 with an empty call trace - the direct lookup
never happens, because start/end are parsed BEFORE direct-hit
detection. -/
theorem claim_C2_counterexample :
    oCounterC2.directHit none (baseParams oCounterC2 gBase none none)
      (referrerOf gBase ++ ".direct-hit") = some ⟨"hit"⟩ ∧
    groupEventsGet oCounterC2 reqBase gBase = (.clientError "invalid date", []) :=
  ⟨rfl, rfl⟩

/-- Claim C2 amended: the order is query resolution, then time-window
resolution, then direct-hit detection, then pagination: after
successful query resolution an invalid-window failure yields the 400
with no storage call at all (so no direct hit can respond), and in the
storage phase the direct-hit lookup precedes every page query. -/
theorem claim_C2_amended (o : Oracle) (req : Request) (g : IssueGroup)
    (envs : List Environment) (q : Option String) (s e : Option Int) (m : String)
    (h1 : o.getEnvironments = .ok envs)
    (h2 : get_search_query o req envs = .ok q)
    (h3 : o.dateRange = .error m) :
    groupEventsGet o req g = (.clientError m, []) ∧
    (get_events_snuba o req g envs q s e).2.head? =
      some (Call.directLookup q (baseParams o g s e) (referrerOf g ++ ".direct-hit")) := by
  constructor
  · unfold groupEventsGet
    rw [h1]
    dsimp only
    rw [h2]
    dsimp only
    rw [h3]
  · exact snuba_trace_head o req g envs q s e

/-- Witness for the amended C2 at a concrete failing window. -/
theorem claim_C2_amended_witness :
    groupEventsGet { oBase with dateRange := .error "bad window" } reqBase gBase =
      (.clientError "bad window", []) ∧
    (get_events_snuba { oBase with dateRange := .error "bad window" }
        reqBase gBase [] none none none).2.head? =
      some (Call.directLookup none
        (baseParams { oBase with dateRange := .error "bad window" } gBase none none)
        (referrerOf gBase ++ ".direct-hit")) :=
  claim_C2_amended { oBase with dateRange := .error "bad window" } reqBase gBase []
    none none none "bad window" rfl rfl rfl

/-- Oracle whose query builder raises `InvalidSearchQuery`. -/
def oCounterC6 : Oracle :=
  { oBase with buildQuery := fun _ _ _ _ _ => .error "Invalid query field" }

/-- Claim C6 counterexample: when building the structured query fails,
the executor's error is the directly raised `ParseError`, NOT a
`GroupEventsError` - the `GroupEventsError` conversion path of the
orchestrator is not what carries this failure. -/
theorem claim_C6_counterexample :
    (get_events_snuba oCounterC6 reqBase gBase [] none none none).1 =
      .error (.parseError "Invalid query field") ∧
    (get_events_snuba oCounterC6 reqBase gBase [] none none none).1 ≠
      .error (.groupEventsError "Invalid query field") :=
  ⟨rfl, by
    intro h
    rw [show (get_events_snuba oCounterC6 reqBase gBase [] none none none).1 =
        Except.error (PageError.parseError "Invalid query field") from rfl] at h
    injection h with h2
    exact PageError.noConfusion h2⟩

/-- Claim C6 amended: when building the structured query raises an
invalid-search-query condition, `data_fn` raises `ParseError` directly
(not `GroupEventsError`) with the message, it propagates out of the
executor, and the response is a 400 client error carrying the message as
`{detail}`. -/
theorem claim_C6_amended (o : Oracle) (req : Request) (g : IssueGroup)
    (envs : List Environment) (q : Option String) (s e : Option Int) (m : String)
    (off lim : Nat) (rest : List (Nat × Nat))
    (h1 : o.getEnvironments = .ok envs)
    (h2 : get_search_query o req envs = .ok q)
    (h3 : o.dateRange = .ok (s, e))
    (hdh : o.directHit q (baseParams o g s e) (referrerOf g ++ ".direct-hit") = none)
    (hpages : o.pages = (off, lim) :: rest)
    (hb : o.buildQuery (req.rawQuery.getD "") (withEnv (baseParams o g s e) envs)
        lim off (orderbyOf req) = .error m) :
    (data_fn o (req.rawQuery.getD "") (withEnv (baseParams o g s e) envs) (referrerOf g)
        (fullFlag req) (orderbyOf req) off lim).1 = .error (.parseError m) ∧
    (get_events_snuba o req g envs q s e).1 = .error (.parseError m) ∧
    (groupEventsGet o req g).1 = .clientError m := by
  have hd1 : (data_fn o (req.rawQuery.getD "") (withEnv (baseParams o g s e) envs)
      (referrerOf g) (fullFlag req) (orderbyOf req) off lim).1 =
      .error (.parseError m) := by
    rw [data_fn_trace_error o (req.rawQuery.getD "") (withEnv (baseParams o g s e) envs)
      (referrerOf g) (fullFlag req) (orderbyOf req) off lim m hb]
  have hrp : (runPages o (req.rawQuery.getD "") (withEnv (baseParams o g s e) envs)
      (referrerOf g) (fullFlag req) (orderbyOf req) o.pages).1 =
      .error (.parseError m) := by
    rw [hpages, runPages]
    dsimp only
    rw [data_fn_trace_error o (req.rawQuery.getD "") (withEnv (baseParams o g s e) envs)
      (referrerOf g) (fullFlag req) (orderbyOf req) off lim m hb]
  have hsn : (get_events_snuba o req g envs q s e).1 = .error (.parseError m) := by
    unfold get_events_snuba
    dsimp only
    rw [hdh]
    dsimp only
    rw [hrp]
  refine ⟨hd1, hsn, ?_⟩
  unfold groupEventsGet
  rw [h1]
  dsimp only
  rw [h2]
  dsimp only
  rw [h3]
  dsimp only
  rw [hsn]

/-- Witness for the amended C6 at a concrete failing builder. -/
theorem claim_C6_amended_witness :
    (data_fn oCounterC6 ((reqBase.rawQuery).getD "")
        (withEnv (baseParams oCounterC6 gBase none none) []) (referrerOf gBase)
        (fullFlag reqBase) (orderbyOf reqBase) 0 100).1 =
      .error (.parseError "Invalid query field") ∧
    (get_events_snuba oCounterC6 reqBase gBase [] none none none).1 =
      .error (.parseError "Invalid query field") ∧
    (groupEventsGet oCounterC6 reqBase gBase).1 = .clientError "Invalid query field" :=
  claim_C6_amended oCounterC6 reqBase gBase [] none none none "Invalid query field"
    0 100 [] rfl rfl rfl rfl rfl rfl
